import Mathlib

/-!
Shallow embedding of `state/pruner.go` (retain-height coordinator).

The pruner keeps three watermarks (application, data companion, ABCI results)
in an external watermark store, resolves the effective block retain height as
the minimum of the two stakeholder watermarks, and runs a background loop that
prunes blocks and ABCI responses.

External collaborators (the watermark store, the block ledger, the state
store's `Load`/`PruneStates`/`PruneABCIResponses`) are not part of the
repository source; they are modelled as explicit state plus oracle functions,
following the interface the source calls into.
-/

/-- Result of a watermark-store read.

Modelled from the spec: the watermark store (external to the source) returns a
distinguished not-found outcome when the watermark was never set, and an
opaque error on a real read failure. Following the Go convention for
`(int64, error)` returns (and the actual key-value store behind the
interface), the integer accompanying `keyNotFound` or `failure` is the zero
value `0`; the calling code in `pruner.go` can and does read that value. -/
inductive GetRes where
  | found (h : Int)
  | keyNotFound
  | failure
deriving DecidableEq

/-- The `int64` value accompanying a store read: the stored height on success,
the Go zero value `0` otherwise. -/
def GetRes.val : GetRes → Int
  | GetRes.found h => h
  | GetRes.keyNotFound => 0
  | GetRes.failure => 0

/-- `true` exactly on the distinguished not-found outcome (`ErrKeyNotFound`). -/
def GetRes.isNotFound : GetRes → Bool
  | GetRes.keyNotFound => true
  | _ => false

/-- `true` exactly on a read failure other than `ErrKeyNotFound`. -/
def GetRes.isFailure : GetRes → Bool
  | GetRes.failure => true
  | _ => false

/-- The persisted watermark state: what each of the three keyed reads of the
watermark store currently returns (`AppRetainHeightKey`,
`DCBlockRetainHeightKey`, `ABCIResRetainHeightKey`). -/
structure WatermarkStore where
  app : GetRes
  companion : GetRes
  abciRes : GetRes
deriving DecidableEq

/-- `stateStore.GetApplicationRetainHeight()`: a read; the store is unchanged. -/
def WatermarkStore.GetApplicationRetainHeight (s : WatermarkStore) :
    GetRes × WatermarkStore :=
  (s.app, s)

/-- `stateStore.GetCompanionBlockRetainHeight()`: a read; the store is unchanged. -/
def WatermarkStore.GetCompanionBlockRetainHeight (s : WatermarkStore) :
    GetRes × WatermarkStore :=
  (s.companion, s)

/-- `stateStore.GetABCIResRetainHeight()`: a read; the store is unchanged. -/
def WatermarkStore.GetABCIResRetainHeight (s : WatermarkStore) :
    GetRes × WatermarkStore :=
  (s.abciRes, s)

/-- `stateStore.SaveApplicationRetainHeight(height)`. -/
def WatermarkStore.SaveApplicationRetainHeight (height : Int)
    (s : WatermarkStore) : WatermarkStore :=
  { s with app := GetRes.found height }

/-- `stateStore.SaveCompanionBlockRetainHeight(height)`. -/
def WatermarkStore.SaveCompanionBlockRetainHeight (height : Int)
    (s : WatermarkStore) : WatermarkStore :=
  { s with companion := GetRes.found height }

/-- `stateStore.SaveABCIResRetainHeight(height)`. -/
def WatermarkStore.SaveABCIResRetainHeight (height : Int)
    (s : WatermarkStore) : WatermarkStore :=
  { s with abciRes := GetRes.found height }

/-- Errors that the pruner's operations can surface. `invalidHeightValue` is
`ErrInvalidHeightValue`; `invalidArgument` is the `pruneBlocks` message
"retain height cannot be less or equal than 0"; `external` stands for an
opaque error coming back from a ledger or store call. -/
inductive PrErr where
  | invalidHeightValue
  | invalidArgument
  | external (n : Nat)
deriving DecidableEq

/-- Outcome of a retain-height setter, as seen by the caller.
`invalidHeight` is `ErrInvalidHeightValue`; `regression` is the
"cannot set a height lower than previously requested" error; `storeError`
is a propagated watermark-store read failure. -/
inductive SetResult where
  | ok
  | invalidHeight
  | regression
  | storeError
deriving DecidableEq

/-- The pruner's read-only environment for one call: the block ledger's
bounds (`bs.Base()`, `bs.Height()`), the consensus-state load
(`stateStore.Load()`), the ledger's prune operation (`bs.PruneBlocks`), and
the state store's prune operation (`stateStore.PruneStates`). `σ` is the
consensus-state type, opaque to the pruner. The two prune operations return
whatever the external store decides; they are oracles of their arguments. -/
structure PrunerEnv (σ : Type) where
  base : Int
  height : Int
  load : Except PrErr σ
  ledgerPruneBlocks : Int → σ → Nat × Int × Option PrErr
  pruneStates : Int → Int → Int → Option PrErr

/-- `Pruner.SetApplicationRetainHeight(height)`, lines 87-113 of
`state/pruner.go`, as a function of the ledger bounds and the watermark
store. Returns the caller-visible result and the store afterwards. -/
def SetApplicationRetainHeight {σ : Type} (env : PrunerEnv σ)
    (s : WatermarkStore) (height : Int) : SetResult × WatermarkStore :=
  if height ≤ 0 ∨ height < env.base ∨ height > env.height then
    (SetResult.invalidHeight, s)
  else if s.app.isFailure then (SetResult.storeError, s)
  else
    let currentAppRetainHeight := if s.app.isNotFound then height else s.app.val
    if s.companion.isFailure then (SetResult.storeError, s)
    else
      let noCompanionRetainHeight := s.companion.isNotFound
      let currentCompanionRetainHeight := s.companion.val
      if currentAppRetainHeight > height ∨
          (noCompanionRetainHeight = false ∧
            currentCompanionRetainHeight > height) then
        (SetResult.regression, s)
      else
        (SetResult.ok, WatermarkStore.SaveApplicationRetainHeight height s)

/-- `Pruner.SetCompanionRetainHeight(height)`, lines 123-149 of
`state/pruner.go`. Symmetric to the application setter. -/
def SetCompanionRetainHeight {σ : Type} (env : PrunerEnv σ)
    (s : WatermarkStore) (height : Int) : SetResult × WatermarkStore :=
  if height ≤ 0 ∨ height < env.base ∨ height > env.height then
    (SetResult.invalidHeight, s)
  else if s.companion.isFailure then (SetResult.storeError, s)
  else
    let currentCompanionRetainHeight :=
      if s.companion.isNotFound then height else s.companion.val
    if s.app.isFailure then (SetResult.storeError, s)
    else
      let noAppRetainHeight := s.app.isNotFound
      let currentAppRetainHeight := s.app.val
      if currentCompanionRetainHeight > height ∨
          (noAppRetainHeight = false ∧ currentAppRetainHeight > height) then
        (SetResult.regression, s)
      else
        (SetResult.ok, WatermarkStore.SaveCompanionBlockRetainHeight height s)

/-- `Pruner.SetABCIResRetainHeight(height)`, lines 155-172 of
`state/pruner.go`. No lower bound against the ledger base; a missing prior
value is persisted directly. -/
def SetABCIResRetainHeight {σ : Type} (env : PrunerEnv σ)
    (s : WatermarkStore) (height : Int) : SetResult × WatermarkStore :=
  if height ≤ 0 ∨ height > env.height then (SetResult.invalidHeight, s)
  else
    match s.abciRes with
    | GetRes.keyNotFound =>
        (SetResult.ok, WatermarkStore.SaveABCIResRetainHeight height s)
    | GetRes.failure => (SetResult.storeError, s)
    | GetRes.found currentRetainHeight =>
        if currentRetainHeight > height then (SetResult.regression, s)
        else (SetResult.ok, WatermarkStore.SaveABCIResRetainHeight height s)

/-- `Pruner.FindMinRetainHeight()`, lines 209-235 of `state/pruner.go`,
with the store threaded through the two reads it performs. Returns the
resolved height and the store afterwards. A read failure other than
not-found yields 0. When the companion read reports not-found and the
application watermark was set, the application value is returned at once;
otherwise control falls through to the minimum comparison on the values the
reads produced (the Go zero value 0 standing in for an unset watermark). -/
def FindMinRetainHeight (s : WatermarkStore) : Int × WatermarkStore :=
  let a := WatermarkStore.GetApplicationRetainHeight s
  let appRes := a.1
  let s1 := a.2
  if appRes.isFailure then (0, s1)
  else
    let noAppRetainHeightSet := appRes.isNotFound
    let appRetainHeight := appRes.val
    let d := WatermarkStore.GetCompanionBlockRetainHeight s1
    let dcRes := d.1
    let s2 := d.2
    if dcRes.isFailure then (0, s2)
    else if dcRes.isNotFound = true ∧ noAppRetainHeightSet = false then
      (appRetainHeight, s2)
    else
      let dcRetainHeight := dcRes.val
      if appRetainHeight < dcRetainHeight then (appRetainHeight, s2)
      else (dcRetainHeight, s2)

/-- What one call to `Pruner.pruneBlocks` (lines 237-261 of `state/pruner.go`)
returned and which external calls it made. `loadAttempted` records whether
`stateStore.Load()` was called; `ledgerPruneArg` the height passed to
`bs.PruneBlocks`, if it was called; `pruneStatesArgs` the
`(base, retainHeight, evidenceRetainHeight)` triple passed to
`stateStore.PruneStates`, if it was called. -/
structure PruneOutcome where
  pruned : Nat
  evRetainHeight : Int
  err : Option PrErr
  loadAttempted : Bool
  ledgerPruneArg : Option Int
  pruneStatesArgs : Option (Int × Int × Int)
deriving DecidableEq

/-- `Pruner.pruneBlocks(height)`. A non-positive height fails at once with no
store access. A failed consensus-state load aborts with that error, the named
returns still holding their zero values. Otherwise the ledger prune runs,
its error is only logged, and `err` is then reassigned from
`stateStore.PruneStates` — the value returned is the state-store prune's
error, whatever the ledger prune did. -/
def pruneBlocks {σ : Type} (env : PrunerEnv σ) (height : Int) : PruneOutcome :=
  if height ≤ 0 then
    { pruned := 0, evRetainHeight := 0, err := some PrErr.invalidArgument,
      loadAttempted := false, ledgerPruneArg := none, pruneStatesArgs := none }
  else
    let base := env.base
    match env.load with
    | Except.error e =>
        { pruned := 0, evRetainHeight := 0, err := some e,
          loadAttempted := true, ledgerPruneArg := none,
          pruneStatesArgs := none }
    | Except.ok state =>
        let r := env.ledgerPruneBlocks height state
        let pruned := r.1
        let evRetainHeight := r.2.1
        let err := env.pruneStates base height evRetainHeight
        { pruned := pruned, evRetainHeight := evRetainHeight, err := err,
          loadAttempted := true, ledgerPruneArg := some height,
          pruneStatesArgs := some (base, height, evRetainHeight) }

/-- The two in-memory cursors of `Pruner.pruningRoutine`:
`lastHeightPruned` and `lastABCIResPrunedHeight`, both starting at 0. -/
structure SchedTrackers where
  lastHeightPruned : Int
  lastABCIResPrunedHeight : Int
deriving DecidableEq

/-- Which pruning work one loop iteration performed: the height passed to
`pruneBlocks` together with its outcome (whose error is only logged), if
block pruning ran, and the height passed to
`stateStore.PruneABCIResponses`, if ABCI-result pruning ran (its result is
only logged, so only the invocation is recorded). -/
structure IterTrace where
  blockPrune : Option (Int × PruneOutcome)
  abciPrune : Option Int
deriving DecidableEq

/-- One iteration of the body of `Pruner.pruningRoutine` (lines 182-200 of
`state/pruner.go`), in the non-quit branch: resolve the effective retain
height, prune blocks when it differs from `lastHeightPruned` and record it as
pruned regardless of outcome; then read the ABCI-results watermark, and when
the read succeeds and the value differs from `lastABCIResPrunedHeight`,
prune ABCI responses. The source never reassigns `lastABCIResPrunedHeight`,
and neither does this embedding. -/
def pruningIteration {σ : Type} (env : PrunerEnv σ) (ws : WatermarkStore)
    (t : SchedTrackers) : SchedTrackers × IterTrace :=
  let f := FindMinRetainHeight ws
  let retainHeight := f.1
  let ws1 := f.2
  let blockStep :=
    if retainHeight ≠ t.lastHeightPruned then
      (retainHeight, some (retainHeight, pruneBlocks env retainHeight))
    else (t.lastHeightPruned, (none : Option (Int × PruneOutcome)))
  let g := WatermarkStore.GetABCIResRetainHeight ws1
  let abciPrune :=
    match g.1 with
    | GetRes.found aBCIResRetainHeight =>
        if t.lastABCIResPrunedHeight ≠ aBCIResRetainHeight then
          some aBCIResRetainHeight
        else none
    | _ => none
  (⟨blockStep.1, t.lastABCIResPrunedHeight⟩, ⟨blockStep.2, abciPrune⟩)

/-- A watermark read described by an `Option Int`: `some v` for a set
watermark, `none` for one never set. Used to state claims in the spec's
vocabulary of set/unset watermarks. -/
def GetRes.ofOption : Option Int → GetRes
  | some v => GetRes.found v
  | none => GetRes.keyNotFound

/-- A concrete environment for evaluating the pruner's operations: ledger
base 1, ledger height 100, consensus state `Unit`, every external prune call
succeeding with zero results. -/
def testEnv : PrunerEnv Unit :=
  { base := 1, height := 100, load := Except.ok (),
    ledgerPruneBlocks := fun _ _ => (0, 0, none),
    pruneStates := fun _ _ _ => none }

/-- A watermark store in which nothing has ever been set: all three reads
report the distinguished not-found outcome. -/
def freshStore : WatermarkStore :=
  ⟨GetRes.keyNotFound, GetRes.keyNotFound, GetRes.keyNotFound⟩

/-- `testEnv` with a failing consensus-state load. -/
def loadFailEnv : PrunerEnv Unit :=
  { testEnv with load := Except.error (PrErr.external 3) }

/-- `testEnv` with a ledger whose `PruneBlocks` fails, returning the Go zero
values `(0, 0)` alongside its error, while `PruneStates` still succeeds. -/
def ledgerFailEnv : PrunerEnv Unit :=
  { testEnv with ledgerPruneBlocks := fun _ _ => (0, 0, some (PrErr.external 7)) }

/-! ## Helper lemmas -/

/-- `FindMinRetainHeight` leaves the store unchanged: it is composed only of
the two read primitives. -/
lemma findMinRetainHeight_store_eq (s : WatermarkStore) :
    (FindMinRetainHeight s).2 = s := by
  obtain ⟨a, c, r⟩ := s
  cases a <;> cases c <;>
    simp [FindMinRetainHeight, WatermarkStore.GetApplicationRetainHeight,
      WatermarkStore.GetCompanionBlockRetainHeight, GetRes.isFailure,
      GetRes.isNotFound, GetRes.val, apply_ite Prod.snd]

/-! ## Claim theorems -/

/-- C1 (code_bug evidence): `FindMinRetainHeight` evaluated on the five cases
of the claim. With both watermarks unset it returns 0; with the application
at 5 and the companion unset it returns 5; with both set it returns the
minimum. But with the application unset and the companion set to 7 it
returns 0, not the claimed 7: the unset application contributes the zero
value 0 to the final minimum comparison, contradicting the claim and the
function's own comment that a single set watermark is returned. -/
theorem findMinRetainHeight_unset_app_bug :
    (FindMinRetainHeight
      ⟨GetRes.keyNotFound, GetRes.found 7, GetRes.keyNotFound⟩).1 = 0 ∧
    (FindMinRetainHeight
      ⟨GetRes.keyNotFound, GetRes.keyNotFound, GetRes.keyNotFound⟩).1 = 0 ∧
    (FindMinRetainHeight
      ⟨GetRes.found 5, GetRes.keyNotFound, GetRes.keyNotFound⟩).1 = 5 ∧
    (FindMinRetainHeight
      ⟨GetRes.found 5, GetRes.found 7, GetRes.keyNotFound⟩).1 = 5 ∧
    (FindMinRetainHeight
      ⟨GetRes.found 7, GetRes.found 5, GetRes.keyNotFound⟩).1 = 5 := by
  decide

/-- C9: `FindMinRetainHeight` performs no store writes — the store it returns
is the one it was given — and therefore a second call run on the store state
left by a first call returns the same value. -/
theorem findMinRetainHeight_pure_idempotent (s : WatermarkStore) :
    (FindMinRetainHeight s).2 = s ∧
    (FindMinRetainHeight (FindMinRetainHeight s).2).1 =
      (FindMinRetainHeight s).1 := by
  refine ⟨findMinRetainHeight_store_eq s, ?_⟩
  rw [findMinRetainHeight_store_eq s]

/-- C5: the two block-watermark setters fail with `InvalidHeight` exactly when
the requested height violates `0 < height ∧ base ≤ height ∧ height ≤ top`,
and the ABCI-results setter fails with `InvalidHeight` exactly when the
requested height violates `0 < height ∧ height ≤ top` — no lower bound
against the ledger base. On an in-range height no path of any setter
produces `InvalidHeight`. -/
theorem setters_invalidHeight_iff {σ : Type} (env : PrunerEnv σ)
    (s : WatermarkStore) (h : Int) :
    ((SetApplicationRetainHeight env s h).1 = SetResult.invalidHeight ↔
      ¬(0 < h ∧ env.base ≤ h ∧ h ≤ env.height)) ∧
    ((SetCompanionRetainHeight env s h).1 = SetResult.invalidHeight ↔
      ¬(0 < h ∧ env.base ≤ h ∧ h ≤ env.height)) ∧
    ((SetABCIResRetainHeight env s h).1 = SetResult.invalidHeight ↔
      ¬(0 < h ∧ h ≤ env.height)) := by
  obtain ⟨a, c, r⟩ := s
  refine ⟨?_, ?_, ?_⟩
  · cases a <;> cases c <;>
      simp only [SetApplicationRetainHeight, GetRes.isFailure,
        GetRes.isNotFound, GetRes.val] <;>
      split_ifs <;> simp_all <;> omega
  · cases a <;> cases c <;>
      simp only [SetCompanionRetainHeight, GetRes.isFailure,
        GetRes.isNotFound, GetRes.val] <;>
      split_ifs <;> simp_all <;> omega
  · cases r <;>
      simp only [SetABCIResRetainHeight] <;>
      split_ifs <;> simp_all <;> omega

/-- C2: for an in-range height and readable watermarks, a setter fails with
`RetainHeightRegression` and leaves the store untouched exactly when the same
stakeholder's current watermark (an unset one counting as the requested
height) or the other stakeholder's current watermark (an unset one imposing
no constraint) exceeds the requested height; otherwise the requested height
is persisted. Stated for both block-watermark setters, plus the concrete
scenario: application watermark at 50, `SetCompanionRetainHeight(30)` fails
with `RetainHeightRegression` and writes nothing. -/
theorem set_retain_height_regression_iff {σ : Type} (env : PrunerEnv σ)
    (h : Int) (appOpt compOpt : Option Int) (r : GetRes)
    (h1 : 0 < h) (h2 : env.base ≤ h) (h3 : h ≤ env.height) :
    (SetApplicationRetainHeight env
        ⟨GetRes.ofOption appOpt, GetRes.ofOption compOpt, r⟩ h =
        (SetResult.regression,
          (⟨GetRes.ofOption appOpt, GetRes.ofOption compOpt, r⟩ :
            WatermarkStore)) ↔
      (appOpt.getD h > h ∨ ∃ v, compOpt = some v ∧ v > h)) ∧
    (¬(appOpt.getD h > h ∨ ∃ v, compOpt = some v ∧ v > h) →
      SetApplicationRetainHeight env
        ⟨GetRes.ofOption appOpt, GetRes.ofOption compOpt, r⟩ h =
        (SetResult.ok, WatermarkStore.SaveApplicationRetainHeight h
          ⟨GetRes.ofOption appOpt, GetRes.ofOption compOpt, r⟩)) ∧
    (SetCompanionRetainHeight env
        ⟨GetRes.ofOption appOpt, GetRes.ofOption compOpt, r⟩ h =
        (SetResult.regression,
          (⟨GetRes.ofOption appOpt, GetRes.ofOption compOpt, r⟩ :
            WatermarkStore)) ↔
      (compOpt.getD h > h ∨ ∃ v, appOpt = some v ∧ v > h)) ∧
    (¬(compOpt.getD h > h ∨ ∃ v, appOpt = some v ∧ v > h) →
      SetCompanionRetainHeight env
        ⟨GetRes.ofOption appOpt, GetRes.ofOption compOpt, r⟩ h =
        (SetResult.ok, WatermarkStore.SaveCompanionBlockRetainHeight h
          ⟨GetRes.ofOption appOpt, GetRes.ofOption compOpt, r⟩)) ∧
    SetCompanionRetainHeight testEnv
        ⟨GetRes.found 50, GetRes.keyNotFound, GetRes.keyNotFound⟩ 30 =
      (SetResult.regression,
        (⟨GetRes.found 50, GetRes.keyNotFound, GetRes.keyNotFound⟩ :
          WatermarkStore)) := by
  refine ⟨?_, ?_, ?_, ?_, by decide⟩ <;>
    cases appOpt <;> cases compOpt <;>
      simp only [SetApplicationRetainHeight, SetCompanionRetainHeight,
        GetRes.ofOption, GetRes.isFailure, GetRes.isNotFound, GetRes.val,
        Option.getD] <;>
      split_ifs <;> simp_all <;> omega

/-- Witness for C2: the regression characterization instantiated at the
concrete input `height = 5` with both watermarks unset, every hypothesis
discharged by evaluation. -/
theorem set_retain_height_regression_iff_witness :
    ((0 : Int) < 5 ∧ testEnv.base ≤ 5 ∧ (5 : Int) ≤ testEnv.height) ∧
    ((SetApplicationRetainHeight testEnv
        ⟨GetRes.ofOption none, GetRes.ofOption none, GetRes.keyNotFound⟩ 5 =
        (SetResult.regression,
          (⟨GetRes.ofOption none, GetRes.ofOption none, GetRes.keyNotFound⟩ :
            WatermarkStore)) ↔
      (Option.getD none 5 > (5 : Int) ∨
        ∃ v, (none : Option Int) = some v ∧ v > 5)) ∧
    (¬(Option.getD none 5 > (5 : Int) ∨
        ∃ v, (none : Option Int) = some v ∧ v > 5) →
      SetApplicationRetainHeight testEnv
        ⟨GetRes.ofOption none, GetRes.ofOption none, GetRes.keyNotFound⟩ 5 =
        (SetResult.ok, WatermarkStore.SaveApplicationRetainHeight 5
          ⟨GetRes.ofOption none, GetRes.ofOption none, GetRes.keyNotFound⟩)) ∧
    (SetCompanionRetainHeight testEnv
        ⟨GetRes.ofOption none, GetRes.ofOption none, GetRes.keyNotFound⟩ 5 =
        (SetResult.regression,
          (⟨GetRes.ofOption none, GetRes.ofOption none, GetRes.keyNotFound⟩ :
            WatermarkStore)) ↔
      (Option.getD none 5 > (5 : Int) ∨
        ∃ v, (none : Option Int) = some v ∧ v > 5)) ∧
    (¬(Option.getD none 5 > (5 : Int) ∨
        ∃ v, (none : Option Int) = some v ∧ v > 5) →
      SetCompanionRetainHeight testEnv
        ⟨GetRes.ofOption none, GetRes.ofOption none, GetRes.keyNotFound⟩ 5 =
        (SetResult.ok, WatermarkStore.SaveCompanionBlockRetainHeight 5
          ⟨GetRes.ofOption none, GetRes.ofOption none, GetRes.keyNotFound⟩)) ∧
    SetCompanionRetainHeight testEnv
        ⟨GetRes.found 50, GetRes.keyNotFound, GetRes.keyNotFound⟩ 30 =
      (SetResult.regression,
        (⟨GetRes.found 50, GetRes.keyNotFound, GetRes.keyNotFound⟩ :
          WatermarkStore))) :=
  ⟨⟨by decide, by decide, by decide⟩,
    set_retain_height_regression_iff testEnv 5 none none GetRes.keyNotFound
      (by decide) (by decide) (by decide)⟩

/-- C6 (counterexample): the claim quantifies over valid `H1 ≤ H2` and
asserts the second of "set `H2`, then set `H1`" fails with
`RetainHeightRegression`. At `H1 = H2 = 5` (a valid instance of `H1 ≤ H2`
under ledger base 1, height 100) the second call succeeds: the regression
check is strict, so re-requesting the same height is accepted. -/
theorem set_monotonic_counterexample :
    ((0 : Int) < 5 ∧ testEnv.base ≤ 5 ∧ (5 : Int) ≤ 5 ∧
      (5 : Int) ≤ testEnv.height) ∧
    (SetApplicationRetainHeight testEnv
        (SetApplicationRetainHeight testEnv freshStore 5).2 5).1 =
      SetResult.ok ∧
    SetResult.ok ≠ SetResult.regression := by
  decide

/-- C6 (amended): starting from a store with no watermark set, for valid
heights `H1 ≤ H2` setting the same watermark to `H1` and then to `H2`
succeeds both times; and when `H1 < H2` (strictly), setting `H2` and then
`H1` makes the second call fail with `RetainHeightRegression`. Stated for
all three watermarks (application, companion, ABCI results). -/
theorem set_monotonic {σ : Type} (env : PrunerEnv σ) (H1 H2 : Int)
    (h1 : 0 < H1) (h2 : env.base ≤ H1) (h12 : H1 ≤ H2)
    (h3 : H2 ≤ env.height) :
    ((SetApplicationRetainHeight env freshStore H1).1 = SetResult.ok ∧
      (SetApplicationRetainHeight env
        (SetApplicationRetainHeight env freshStore H1).2 H2).1 =
        SetResult.ok) ∧
    (H1 < H2 →
      (SetApplicationRetainHeight env
        (SetApplicationRetainHeight env freshStore H2).2 H1).1 =
        SetResult.regression) ∧
    ((SetCompanionRetainHeight env freshStore H1).1 = SetResult.ok ∧
      (SetCompanionRetainHeight env
        (SetCompanionRetainHeight env freshStore H1).2 H2).1 =
        SetResult.ok) ∧
    (H1 < H2 →
      (SetCompanionRetainHeight env
        (SetCompanionRetainHeight env freshStore H2).2 H1).1 =
        SetResult.regression) ∧
    ((SetABCIResRetainHeight env freshStore H1).1 = SetResult.ok ∧
      (SetABCIResRetainHeight env
        (SetABCIResRetainHeight env freshStore H1).2 H2).1 =
        SetResult.ok) ∧
    (H1 < H2 →
      (SetABCIResRetainHeight env
        (SetABCIResRetainHeight env freshStore H2).2 H1).1 =
        SetResult.regression) := by
  have hA : ∀ H : Int, 0 < H → env.base ≤ H → H ≤ env.height →
      SetApplicationRetainHeight env freshStore H =
        (SetResult.ok,
          ⟨GetRes.found H, GetRes.keyNotFound, GetRes.keyNotFound⟩) := by
    intro H g1 g2 g3
    unfold SetApplicationRetainHeight
    rw [if_neg (by omega)]
    simp [freshStore, GetRes.isFailure, GetRes.isNotFound, GetRes.val,
      WatermarkStore.SaveApplicationRetainHeight]
  have hA2 : ∀ Hp H : Int, 0 < H → env.base ≤ H → H ≤ env.height →
      SetApplicationRetainHeight env
          ⟨GetRes.found Hp, GetRes.keyNotFound, GetRes.keyNotFound⟩ H =
        (if Hp > H then
          (SetResult.regression,
            ⟨GetRes.found Hp, GetRes.keyNotFound, GetRes.keyNotFound⟩)
        else (SetResult.ok,
          ⟨GetRes.found H, GetRes.keyNotFound, GetRes.keyNotFound⟩)) := by
    intro Hp H g1 g2 g3
    unfold SetApplicationRetainHeight
    rw [if_neg (by omega)]
    simp [GetRes.isFailure, GetRes.isNotFound, GetRes.val,
      WatermarkStore.SaveApplicationRetainHeight]
  have hC : ∀ H : Int, 0 < H → env.base ≤ H → H ≤ env.height →
      SetCompanionRetainHeight env freshStore H =
        (SetResult.ok,
          ⟨GetRes.keyNotFound, GetRes.found H, GetRes.keyNotFound⟩) := by
    intro H g1 g2 g3
    unfold SetCompanionRetainHeight
    rw [if_neg (by omega)]
    simp [freshStore, GetRes.isFailure, GetRes.isNotFound, GetRes.val,
      WatermarkStore.SaveCompanionBlockRetainHeight]
  have hC2 : ∀ Hp H : Int, 0 < H → env.base ≤ H → H ≤ env.height →
      SetCompanionRetainHeight env
          ⟨GetRes.keyNotFound, GetRes.found Hp, GetRes.keyNotFound⟩ H =
        (if Hp > H then
          (SetResult.regression,
            ⟨GetRes.keyNotFound, GetRes.found Hp, GetRes.keyNotFound⟩)
        else (SetResult.ok,
          ⟨GetRes.keyNotFound, GetRes.found H, GetRes.keyNotFound⟩)) := by
    intro Hp H g1 g2 g3
    unfold SetCompanionRetainHeight
    rw [if_neg (by omega)]
    simp [GetRes.isFailure, GetRes.isNotFound, GetRes.val,
      WatermarkStore.SaveCompanionBlockRetainHeight]
  have hB : ∀ H : Int, 0 < H → H ≤ env.height →
      SetABCIResRetainHeight env freshStore H =
        (SetResult.ok,
          ⟨GetRes.keyNotFound, GetRes.keyNotFound, GetRes.found H⟩) := by
    intro H g1 g3
    unfold SetABCIResRetainHeight
    rw [if_neg (by omega)]
    simp [freshStore, WatermarkStore.SaveABCIResRetainHeight]
  have hB2 : ∀ Hp H : Int, 0 < H → H ≤ env.height →
      SetABCIResRetainHeight env
          ⟨GetRes.keyNotFound, GetRes.keyNotFound, GetRes.found Hp⟩ H =
        (if Hp > H then
          (SetResult.regression,
            ⟨GetRes.keyNotFound, GetRes.keyNotFound, GetRes.found Hp⟩)
        else (SetResult.ok,
          ⟨GetRes.keyNotFound, GetRes.keyNotFound, GetRes.found H⟩)) := by
    intro Hp H g1 g3
    unfold SetABCIResRetainHeight
    rw [if_neg (by omega)]
    simp [WatermarkStore.SaveABCIResRetainHeight]
  refine ⟨⟨?_, ?_⟩, ?_, ⟨?_, ?_⟩, ?_, ⟨?_, ?_⟩, ?_⟩
  · rw [hA H1 h1 h2 (by omega)]
  · rw [hA H1 h1 h2 (by omega), hA2 H1 H2 (by omega) (by omega) h3,
      if_neg (by omega)]
  · intro hlt
    rw [hA H2 (by omega) (by omega) h3, hA2 H2 H1 h1 h2 (by omega),
      if_pos (by omega)]
  · rw [hC H1 h1 h2 (by omega)]
  · rw [hC H1 h1 h2 (by omega), hC2 H1 H2 (by omega) (by omega) h3,
      if_neg (by omega)]
  · intro hlt
    rw [hC H2 (by omega) (by omega) h3, hC2 H2 H1 h1 h2 (by omega),
      if_pos (by omega)]
  · rw [hB H1 h1 (by omega)]
  · rw [hB H1 h1 (by omega), hB2 H1 H2 (by omega) h3, if_neg (by omega)]
  · intro hlt
    rw [hB H2 (by omega) h3, hB2 H2 H1 h1 (by omega), if_pos (by omega)]

/-- Witness for C6: the amended monotonicity statement instantiated at
`H1 = 3`, `H2 = 7` under ledger base 1, height 100. -/
theorem set_monotonic_witness :
    ((0 : Int) < 3 ∧ testEnv.base ≤ 3 ∧ (3 : Int) ≤ 7 ∧
      (7 : Int) ≤ testEnv.height) ∧
    (((SetApplicationRetainHeight testEnv freshStore 3).1 = SetResult.ok ∧
      (SetApplicationRetainHeight testEnv
        (SetApplicationRetainHeight testEnv freshStore 3).2 7).1 =
        SetResult.ok) ∧
    ((3 : Int) < 7 →
      (SetApplicationRetainHeight testEnv
        (SetApplicationRetainHeight testEnv freshStore 7).2 3).1 =
        SetResult.regression) ∧
    ((SetCompanionRetainHeight testEnv freshStore 3).1 = SetResult.ok ∧
      (SetCompanionRetainHeight testEnv
        (SetCompanionRetainHeight testEnv freshStore 3).2 7).1 =
        SetResult.ok) ∧
    ((3 : Int) < 7 →
      (SetCompanionRetainHeight testEnv
        (SetCompanionRetainHeight testEnv freshStore 7).2 3).1 =
        SetResult.regression) ∧
    ((SetABCIResRetainHeight testEnv freshStore 3).1 = SetResult.ok ∧
      (SetABCIResRetainHeight testEnv
        (SetABCIResRetainHeight testEnv freshStore 3).2 7).1 =
        SetResult.ok) ∧
    ((3 : Int) < 7 →
      (SetABCIResRetainHeight testEnv
        (SetABCIResRetainHeight testEnv freshStore 7).2 3).1 =
        SetResult.regression)) :=
  ⟨⟨by decide, by decide, by decide, by decide⟩,
    set_monotonic testEnv 3 7 (by decide) (by decide) (by decide) (by decide)⟩

/-- C7 (counterexample): the claim says the application setter fails when the
companion watermark is set to some value strictly below the requested height,
and succeeds when it is set at or above it. With ledger base 1, height 100,
the application watermark unset, and the companion set to 3, requesting 5
succeeds (3 < 5 does not block); and with the companion set to 7, requesting
5 fails with `RetainHeightRegression` (7 ≥ 5 does block). Both directions of
the claim are refuted at these inputs. -/
theorem cross_stakeholder_counterexample :
    (SetApplicationRetainHeight testEnv
        ⟨GetRes.keyNotFound, GetRes.found 3, GetRes.keyNotFound⟩ 5).1 =
      SetResult.ok ∧
    (SetApplicationRetainHeight testEnv
        ⟨GetRes.keyNotFound, GetRes.found 7, GetRes.keyNotFound⟩ 5).1 =
      SetResult.regression ∧
    SetResult.ok ≠ SetResult.regression := by
  decide

/-- C7 (amended): with its own watermark unset and an in-range requested
height `H`, the application setter fails with `RetainHeightRegression`
exactly when the companion watermark is already set to some `Hp > H`, and
succeeds — persisting `H` — when `Hp ≤ H`; symmetrically for the companion
setter against an already-set application watermark. -/
theorem cross_stakeholder_protection {σ : Type} (env : PrunerEnv σ)
    (H Hp : Int) (r : GetRes) (h1 : 0 < H) (h2 : env.base ≤ H)
    (h3 : H ≤ env.height) :
    ((SetApplicationRetainHeight env
        ⟨GetRes.keyNotFound, GetRes.found Hp, r⟩ H).1 =
        SetResult.regression ↔ Hp > H) ∧
    (Hp ≤ H →
      SetApplicationRetainHeight env
          ⟨GetRes.keyNotFound, GetRes.found Hp, r⟩ H =
        (SetResult.ok, ⟨GetRes.found H, GetRes.found Hp, r⟩)) ∧
    ((SetCompanionRetainHeight env
        ⟨GetRes.found Hp, GetRes.keyNotFound, r⟩ H).1 =
        SetResult.regression ↔ Hp > H) ∧
    (Hp ≤ H →
      SetCompanionRetainHeight env
          ⟨GetRes.found Hp, GetRes.keyNotFound, r⟩ H =
        (SetResult.ok, ⟨GetRes.found Hp, GetRes.found H, r⟩)) := by
  have hA : SetApplicationRetainHeight env
      ⟨GetRes.keyNotFound, GetRes.found Hp, r⟩ H =
      (if H < Hp then
        (SetResult.regression, ⟨GetRes.keyNotFound, GetRes.found Hp, r⟩)
      else (SetResult.ok, ⟨GetRes.found H, GetRes.found Hp, r⟩)) := by
    unfold SetApplicationRetainHeight
    rw [if_neg (by omega)]
    simp [GetRes.isFailure, GetRes.isNotFound, GetRes.val,
      WatermarkStore.SaveApplicationRetainHeight]
  have hC : SetCompanionRetainHeight env
      ⟨GetRes.found Hp, GetRes.keyNotFound, r⟩ H =
      (if H < Hp then
        (SetResult.regression, ⟨GetRes.found Hp, GetRes.keyNotFound, r⟩)
      else (SetResult.ok, ⟨GetRes.found Hp, GetRes.found H, r⟩)) := by
    unfold SetCompanionRetainHeight
    rw [if_neg (by omega)]
    simp [GetRes.isFailure, GetRes.isNotFound, GetRes.val,
      WatermarkStore.SaveCompanionBlockRetainHeight]
  refine ⟨?_, ?_, ?_, ?_⟩
  · rw [hA]
    split_ifs with hc
    · exact iff_of_true rfl hc
    · exact iff_of_false (by simp) hc
  · intro hle
    rw [hA, if_neg (by omega)]
  · rw [hC]
    split_ifs with hc
    · exact iff_of_true rfl hc
    · exact iff_of_false (by simp) hc
  · intro hle
    rw [hC, if_neg (by omega)]

/-- Witness for C7: the amended cross-stakeholder characterization at
requested height 5 against a companion (resp. application) watermark of 3. -/
theorem cross_stakeholder_protection_witness :
    ((0 : Int) < 5 ∧ testEnv.base ≤ 5 ∧ (5 : Int) ≤ testEnv.height) ∧
    (((SetApplicationRetainHeight testEnv
        ⟨GetRes.keyNotFound, GetRes.found 3, GetRes.keyNotFound⟩ 5).1 =
        SetResult.regression ↔ (3 : Int) > 5) ∧
    ((3 : Int) ≤ 5 →
      SetApplicationRetainHeight testEnv
          ⟨GetRes.keyNotFound, GetRes.found 3, GetRes.keyNotFound⟩ 5 =
        (SetResult.ok,
          ⟨GetRes.found 5, GetRes.found 3, GetRes.keyNotFound⟩)) ∧
    ((SetCompanionRetainHeight testEnv
        ⟨GetRes.found 3, GetRes.keyNotFound, GetRes.keyNotFound⟩ 5).1 =
        SetResult.regression ↔ (3 : Int) > 5) ∧
    ((3 : Int) ≤ 5 →
      SetCompanionRetainHeight testEnv
          ⟨GetRes.found 3, GetRes.keyNotFound, GetRes.keyNotFound⟩ 5 =
        (SetResult.ok,
          ⟨GetRes.found 3, GetRes.found 5, GetRes.keyNotFound⟩))) :=
  ⟨⟨by decide, by decide, by decide⟩,
    cross_stakeholder_protection testEnv 5 3 GetRes.keyNotFound
      (by decide) (by decide) (by decide)⟩

/-- C8: `pruneBlocks` with a non-positive height fails immediately with the
invalid-argument error, attempting no load, no ledger prune and no
state-store prune; and with a positive height whose consensus-state load
fails, it returns that load error with no ledger prune and no state-store
prune commanded. -/
theorem pruneBlocks_precondition {σ : Type} (env1 env2 : PrunerEnv σ)
    (hlo hhi : Int) (e : PrErr) (hneg : hlo ≤ 0) (hpos : 0 < hhi)
    (hload : env2.load = Except.error e) :
    pruneBlocks env1 hlo =
      { pruned := 0, evRetainHeight := 0,
        err := some PrErr.invalidArgument, loadAttempted := false,
        ledgerPruneArg := none, pruneStatesArgs := none } ∧
    pruneBlocks env2 hhi =
      { pruned := 0, evRetainHeight := 0, err := some e,
        loadAttempted := true, ledgerPruneArg := none,
        pruneStatesArgs := none } := by
  constructor
  · unfold pruneBlocks
    rw [if_pos hneg]
  · unfold pruneBlocks
    rw [if_neg (by omega)]
    rw [hload]

/-- Witness for C8: heights 0 and 5 against concrete environments, the
second of which fails its consensus-state load with `external 3`. -/
theorem pruneBlocks_precondition_witness :
    ((0 : Int) ≤ 0 ∧ (0 : Int) < 5 ∧
      loadFailEnv.load = Except.error (PrErr.external 3)) ∧
    (pruneBlocks testEnv 0 =
      { pruned := 0, evRetainHeight := 0,
        err := some PrErr.invalidArgument, loadAttempted := false,
        ledgerPruneArg := none, pruneStatesArgs := none } ∧
    pruneBlocks loadFailEnv 5 =
      { pruned := 0, evRetainHeight := 0, err := some (PrErr.external 3),
        loadAttempted := true, ledgerPruneArg := none,
        pruneStatesArgs := none }) :=
  ⟨⟨by decide, by decide, rfl⟩,
    pruneBlocks_precondition testEnv loadFailEnv 0 5 (PrErr.external 3)
      (by decide) (by decide) rfl⟩

/-- C3 (counterexample): a run in which the ledger prune fails with
`external 7` while the state-store prune succeeds. The state-store prune is
attempted, but `pruneBlocks` returns a nil error: the ledger failure was
overwritten by the successful `PruneStates` result, so it is not reported —
refuting the claim that the returned error is non-nil whenever either step
failed. -/
theorem pruneBlocks_error_overwritten_counterexample :
    (ledgerFailEnv.ledgerPruneBlocks 5 ()).2.2 = some (PrErr.external 7) ∧
    ledgerFailEnv.pruneStates 1 5 0 = none ∧
    (pruneBlocks ledgerFailEnv 5).pruneStatesArgs = some (1, 5, 0) ∧
    (pruneBlocks ledgerFailEnv 5).err = none := by
  refine ⟨rfl, rfl, rfl, rfl⟩

/-- C3 (amended): when `height > 0` and the consensus-state load succeeds,
the state-store prune step is always attempted — with the base, the
requested height, and whatever evidence floor the ledger prune returned,
even if the ledger prune failed — and the error `pruneBlocks` returns is
exactly the state-store prune's error: non-nil iff the state-store prune
failed. A ledger-prune failure is only logged; it is not reported when the
subsequent state-store prune succeeds. -/
theorem pruneBlocks_stateStore_attempted {σ : Type} (env : PrunerEnv σ)
    (h : Int) (st : σ) (hpos : 0 < h) (hload : env.load = Except.ok st) :
    (pruneBlocks env h).pruneStatesArgs =
      some (env.base, h, (env.ledgerPruneBlocks h st).2.1) ∧
    (pruneBlocks env h).err =
      env.pruneStates env.base h (env.ledgerPruneBlocks h st).2.1 := by
  unfold pruneBlocks
  rw [if_neg (by omega), hload]
  exact ⟨rfl, rfl⟩

/-- Witness for C3: the amended statement evaluated on the environment whose
ledger prune fails and whose state-store prune succeeds, at height 5. -/
theorem pruneBlocks_stateStore_attempted_witness :
    ((0 : Int) < 5 ∧ ledgerFailEnv.load = Except.ok ()) ∧
    ((pruneBlocks ledgerFailEnv 5).pruneStatesArgs =
      some (ledgerFailEnv.base, 5,
        (ledgerFailEnv.ledgerPruneBlocks 5 ()).2.1) ∧
    (pruneBlocks ledgerFailEnv 5).err =
      ledgerFailEnv.pruneStates ledgerFailEnv.base 5
        (ledgerFailEnv.ledgerPruneBlocks 5 ()).2.1) :=
  ⟨⟨by decide, rfl⟩,
    pruneBlocks_stateStore_attempted ledgerFailEnv 5 () (by decide) rfl⟩

/-- C10: when the ledger's `PruneBlocks` call fails and — as a Go function
returning its zero values alongside the error — reports an evidence retain
height of 0, the subsequent `PruneStates` call is still made and receives
`(base, height, 0)`: the zero value from the failed ledger call stands in
for the evidence floor, and is also what `pruneBlocks` returns as
`evRetainHeight`. -/
theorem pruneBlocks_ev_zero_passthrough {σ : Type} (env : PrunerEnv σ)
    (h : Int) (st : σ) (n : Nat) (e : PrErr) (hpos : 0 < h)
    (hload : env.load = Except.ok st)
    (hledger : env.ledgerPruneBlocks h st = (n, 0, some e)) :
    (pruneBlocks env h).pruneStatesArgs = some (env.base, h, 0) ∧
    (pruneBlocks env h).evRetainHeight = 0 := by
  unfold pruneBlocks
  rw [if_neg (by omega), hload]
  dsimp only
  rw [hledger]
  exact ⟨rfl, rfl⟩

/-- Witness for C10: the failed-ledger pass-through evaluated on the
environment whose ledger prune returns `(0, 0, external 7)`, at height 5. -/
theorem pruneBlocks_ev_zero_passthrough_witness :
    ((0 : Int) < 5 ∧ ledgerFailEnv.load = Except.ok () ∧
      ledgerFailEnv.ledgerPruneBlocks 5 () =
        (0, 0, some (PrErr.external 7))) ∧
    ((pruneBlocks ledgerFailEnv 5).pruneStatesArgs =
      some (ledgerFailEnv.base, 5, 0) ∧
    (pruneBlocks ledgerFailEnv 5).evRetainHeight = 0) :=
  ⟨⟨by decide, rfl, rfl⟩,
    pruneBlocks_ev_zero_passthrough ledgerFailEnv 5 () 0 (PrErr.external 7)
      (by decide) rfl rfl⟩

/-- C4 (code_bug evidence): the scheduler loop never reassigns
`lastABCIResPrunedHeight` — after any iteration the tracked value is
whatever it was before — so with the ABCI-results watermark set to 5 and the
tracker starting at 0, the first iteration prunes ABCI responses at 5,
leaves the tracker at 0, and the next iteration prunes the unchanged
watermark at 5 again, contrary to the claim that the tracker is updated to
the value just read and an unchanged watermark is not re-pruned. -/
theorem pruningRoutine_abci_tracker_never_updated :
    (∀ (σ : Type) (env : PrunerEnv σ) (ws : WatermarkStore)
      (t : SchedTrackers),
      (pruningIteration env ws t).1.lastABCIResPrunedHeight =
        t.lastABCIResPrunedHeight) ∧
    (pruningIteration testEnv
        ⟨GetRes.keyNotFound, GetRes.keyNotFound, GetRes.found 5⟩
        ⟨0, 0⟩).2.abciPrune = some 5 ∧
    (pruningIteration testEnv
        ⟨GetRes.keyNotFound, GetRes.keyNotFound, GetRes.found 5⟩
        ⟨0, 0⟩).1.lastABCIResPrunedHeight = 0 ∧
    (pruningIteration testEnv
        ⟨GetRes.keyNotFound, GetRes.keyNotFound, GetRes.found 5⟩
        (pruningIteration testEnv
          ⟨GetRes.keyNotFound, GetRes.keyNotFound, GetRes.found 5⟩
          ⟨0, 0⟩).1).2.abciPrune = some 5 := by
  refine ⟨fun σ env ws t => rfl, by decide, by decide, by decide⟩
